import Mathlib

/-!
Shallow embedding of six ONNX-frontend operator-translation functions of the
openvino repository (op/stft.cpp, op/scan.cpp, op/scatter_nd.cpp,
op/random_normal_like.cpp, op/multiply.hpp set_7, op/sqrt.hpp set_1) and
proofs about them.  Constructed runtime graphs are modelled as terms; node
inputs are modelled by their frontend-visible metadata (nullness, shape,
element type, constant payload); exceptions are modelled by `Except`.
-/

set_option maxRecDepth 4000

namespace OnnxFrontend

/-- Float attribute payloads.  No floating-point arithmetic occurs in the
translated code: float attribute values are only read and forwarded, so they
are carried as opaque tokens (the literals 0.0f / 1.0f become 0 / 1). -/
abbrev F32 := Int

/-- A single dimension of a runtime shape: statically known extent or dynamic. -/
abbrev Dim := Option Int

/-- A runtime PartialShape: `none` is dynamic rank, otherwise a list of dims. -/
abbrev PShape := Option (List Dim)

/-- Runtime element types.  `fromDtype d` is the (opaque) image of the ONNX
dtype code `d` under the frontend's dtype map; `named` covers all others. -/
inductive ETy where
  | fromDtype (d : Int)
  | named (s : String)
deriving DecidableEq, Repr

/-- Modelled from the spec: `common::get_ov_element_type` (utils/common.hpp is
not under src/; the spec delegates the "node/attribute-parsing layer" and type
mapping to collaborators).  Modelled as the abstract injection of ONNX dtype
codes into runtime element types. -/
def get_ov_element_type (d : Int) : ETy := ETy.fromDtype d

/-- The frontend-visible metadata of one already-resolved node input
(an `ov::Output<ov::Node>`): nullness, partial shape, element type, and the
int64 payload when the producing node is a `v0::Constant`. -/
structure OVValue where
  isNull : Bool := false
  pshape : PShape := none
  et : ETy := ETy.named "f32"
  constVals : Option (List Int) := none
deriving DecidableEq, Repr

/-- A parameter of a `body` subgraph (an `ov::op::v0::Parameter`). -/
structure BodyParam where
  pshape : PShape := none
  et : ETy := ETy.named "f32"
deriving DecidableEq, Repr

/-- Terms of a `body` subgraph: parameters, Squeeze/Unsqueeze with a constant
axes input, and arbitrary other runtime ops (`lit`/`op1`/`op2`) tagged with an
id and the partial shape the runtime's shape inference assigns to them. -/
inductive BTerm where
  | param (i : Nat)
  | squeezeAx (t : BTerm) (axis : Int)
  | unsqueezeAx (t : BTerm) (axis : Int)
  | lit (id : Nat) (ps : PShape)
  | op1 (id : Nat) (ps : PShape) (a : BTerm)
  | op2 (id : Nat) (ps : PShape) (a b : BTerm)
deriving DecidableEq, Repr

/-- A `body` subgraph as the frontend sees it (`get_ng_parameters`,
`get_ov_outputs`). -/
structure BodyGraph where
  params : List BodyParam := []
  results : List BTerm := []
deriving DecidableEq, Repr

/-- An ONNX node, as exposed to the translation functions: resolved inputs,
typed attribute maps, and the `body` subgraph when one exists.  `name` models
node identity/description data that no translation's output depends on. -/
structure Node where
  name : String := ""
  inputs : List OVValue := []
  attrInts : List (String × Int) := []
  attrFloats : List (String × F32) := []
  attrStrs : List (String × String) := []
  attrIntLists : List (String × List Int) := []
  body : Option BodyGraph := none
deriving DecidableEq, Repr

def dfltV : OVValue := {}

/-- `node.get_attribute_value<int64_t>(name, dflt)`. -/
def getAttrInt (a : List (String × Int)) (nm : String) (dflt : Int) : Int :=
  (a.lookup nm).getD dflt

/-- `node.get_attribute_value<float>(name, dflt)`. -/
def getAttrF (a : List (String × F32)) (nm : String) (dflt : F32) : F32 :=
  (a.lookup nm).getD dflt

/-- `node.get_attribute_value<std::string>(name, dflt)`. -/
def getAttrStr (a : List (String × String)) (nm : String) (dflt : String) : String :=
  (a.lookup nm).getD dflt

/-- `node.get_attribute_value<std::vector<int64_t>>(name, dflt)`. -/
def getAttrIntList (a : List (String × List Int)) (nm : String) (dflt : List Int) :
    List Int :=
  (a.lookup nm).getD dflt

/-- `ng_inputs.at(i)`: throws `std::out_of_range` past the end. -/
def ngAt (l : List OVValue) (i : Nat) : Except String OVValue :=
  match l[i]? with
  | some v => .ok v
  | none => .error "input index out of range"

/-- Terms of the constructed output graph.  `arg i` is the node's resolved
input number `i`; the remaining constructors record the runtime op constructors
invoked by the translations with their arguments. -/
inductive Term where
  | arg (i : Nat)
  | constI (et : ETy) (shape : List Nat) (vals : List Int)
  | constF (et : ETy) (shape : List Nat) (vals : List F32)
  | slice (data start stop step axes : Term)
  | reshape (data pattern : Term) (specialZero : Bool)
  | multiply (a b : Term)
  | concat (ts : List Term) (axis : Int)
  | unsqueeze (data axes : Term)
  | broadcast (data shape : Term)
  | shapeOf (data : Term)
  | makeDFT (data len : Term) (axis : Int) (inverse onesided : Bool)
  | nullNode
  | sqrtOp (a : Term)
  | scatterNDUpdate (data indices updates : Term)
  | randomNormal (shape : Term) (et : ETy) (mean scale : Term) (seed : F32)

/-- `set_1::sqrt`, core on the fields it reads: wraps input 0 in `v0::Sqrt`. -/
def sqrtCore (inputs : List OVValue) : Except String (List Term) := do
  let _ ← ngAt inputs 0
  pure [Term.sqrtOp (Term.arg 0)]

/-- `ov::frontend::onnx::op::set_1::sqrt`. -/
def sqrt_1 (node : Node) : Except String (List Term) :=
  sqrtCore node.inputs

/-- `set_7::mul`, core: `v1::Multiply` of inputs 0 and 1. -/
def mulCore (inputs : List OVValue) : Except String (List Term) := do
  let _ ← ngAt inputs 0
  let _ ← ngAt inputs 1
  pure [Term.multiply (Term.arg 0) (Term.arg 1)]

/-- `ov::frontend::onnx::op::set_7::mul`. -/
def mul_7 (node : Node) : Except String (List Term) :=
  mulCore node.inputs

/-- `set_1::scatter_nd`, core: fetches inputs 0..2, rejects a `reduction`
attribute different from "none", and builds `v3::ScatterNDUpdate`. -/
def scatterNdCore (inputs : List OVValue) (attrStrs : List (String × String)) :
    Except String (List Term) := do
  let _ ← ngAt inputs 0
  let _ ← ngAt inputs 1
  let _ ← ngAt inputs 2
  if (attrStrs.lookup "reduction").isSome then
    let reduction := getAttrStr attrStrs "reduction" "none"
    if reduction = "none" then
      pure [Term.scatterNDUpdate (Term.arg 0) (Term.arg 1) (Term.arg 2)]
    else
      .error "Unsupported value of attribute: reduction. Only none is supported"
  else
    pure [Term.scatterNDUpdate (Term.arg 0) (Term.arg 1) (Term.arg 2)]

/-- `ov::frontend::onnx::op::set_1::scatter_nd`. -/
def scatter_nd_1 (node : Node) : Except String (List Term) :=
  scatterNdCore node.inputs node.attrStrs

/-- Modelled from the spec: `ov::frontend::make_random_normal`
(random_normal_helper.hpp is not under src/; the spec delegates
"random-number generation" to the runtime).  Modelled as the opaque
random-normal graph constructor recording its arguments; its first component
is the single-output vector the caller returns. -/
def make_random_normal (shape : Term) (et : ETy) (meanNode scaleNode : Term)
    (seed : F32) : List Term :=
  [Term.randomNormal shape et meanNode scaleNode seed]

/-- `set_1::random_normal_like`, core on the fields it reads. -/
def randomNormalLikeCore (inputs : List OVValue) (attrInts : List (String × Int))
    (attrFloats : List (String × F32)) : Except String (List Term) := do
  let input ← ngAt inputs 0
  let targetType :=
    match attrInts.lookup "dtype" with
    | some d => get_ov_element_type d
    | none => input.et
  let shape := Term.shapeOf (Term.arg 0)
  let seed := getAttrF attrFloats "seed" 0
  let mean := getAttrF attrFloats "mean" 0
  let scale := getAttrF attrFloats "scale" 1
  let scaleNode := Term.constF targetType [1] [scale]
  let meanNode := Term.constF targetType [1] [mean]
  pure (make_random_normal shape targetType meanNode scaleNode seed)

/-- `ov::frontend::onnx::op::set_1::random_normal_like`. -/
def random_normal_like_1 (node : Node) : Except String (List Term) :=
  randomNormalLikeCore node.inputs node.attrInts node.attrFloats

/-! ### stft (set_17) -/

/-- `ov::shape_size(get_shape())`: element count of a fully static shape. -/
def shapeNumel (p : PShape) : Option Int :=
  match p with
  | some ds => ds.foldr (fun d acc =>
      match d, acc with
      | some v, some a => some (v * a)
      | _, _ => none) (some 1)
  | none => none

/-- Rank of a partial shape when static. -/
def rankOf (p : PShape) : Option Nat :=
  match p with
  | some ds => some ds.length
  | none => none

/-- `is_constant(n) && shape_size(n->get_shape()) <= 1`: the input is produced
by a Constant holding at most one element. -/
def constScalarOk (v : OVValue) : Bool :=
  v.constVals.isSome &&
    (match shapeNumel v.pshape with
     | some n => decide (n ≤ 1)
     | none => false)

/-- `as_type_ptr<v0::Constant>(...)->cast_vector<int64_t>()[0]`. -/
def castVec0 (v : OVValue) : Int :=
  (v.constVals.getD []).getD 0 0

/-- `pshape.is_static() && pshape.size() == 3` for the signal input. -/
def staticRank3 (p : PShape) : Bool :=
  match p with
  | some ds => decide (ds.length = 3) && ds.all Option.isSome
  | none => false

/-- The stft lambda `is_complex`: rank static, innermost dimension static
and equal to 2. -/
def isComplexP (p : PShape) : Bool :=
  match p with
  | some ds =>
    match ds.getLast? with
    | some (some v) => decide (v = 2)
    | _ => false
  | none => false

/-- `ng_inputs.size() > 3 && !is_null(ng_inputs[3])`. -/
def dftLenProvided (inputs : List OVValue) : Bool :=
  decide (3 < inputs.length) && !(inputs.getD 3 dfltV).isNull

/-- `ng_inputs.size() > 2 && !is_null(ng_inputs[2])`. -/
def winProvided (inputs : List OVValue) : Bool :=
  decide (2 < inputs.length) && !(inputs.getD 2 dfltV).isNull

/-- The extracted `frame_step` constant value. -/
def stftFrameStep (inputs : List OVValue) : Int :=
  castVec0 (inputs.getD 1 dfltV)

/-- `signal_param_shape[k].get_length()` for the static rank-3 signal. -/
def signalDim (inputs : List OVValue) (k : Nat) : Int :=
  match (inputs.getD 0 dfltV).pshape with
  | some ds => (ds.getD k none).getD 0
  | none => 0

/-- `frame_length`: the default `signal_shape[1] / frame_step` (C++ int64
division, truncation toward zero), overridden by the `dft_length` constant
(input 3) when that input is provided. -/
def stftFrameLength (inputs : List OVValue) : Int :=
  if dftLenProvided inputs then castVec0 (inputs.getD 3 dfltV)
  else Int.tdiv (signalDim inputs 1) (stftFrameStep inputs)

/-- Window rank check: passes when the window rank is dynamic or equals 1. -/
def winRankOk (inputs : List OVValue) : Bool :=
  match rankOf (inputs.getD 2 dfltV).pshape with
  | some r => decide (r = 1)
  | none => true

/-- Window length check: passes when dimension 0 of the window is dynamic or
equals `frame_length`. -/
def winLenOk (inputs : List OVValue) : Bool :=
  match (inputs.getD 2 dfltV).pshape with
  | some ds =>
    match ds.getD 0 none with
    | some L => decide (L = stftFrameLength inputs)
    | none => true
  | none => true

/-- Modelled from the spec: runtime Slice shape inference ("shape-inference
passes" are delegated to the runtime).  Extent of a step-1 slice `[lo, hi)` of
an axis of length `L`, with the bounds clamped into `[0, L]`. -/
def clampExt (L lo hi : Int) : Int :=
  max 0 (min (max hi 0) L - min (max lo 0) L)

/-- Modelled from the spec: runtime Slice/Reshape shape inference.  Element
count of frame `(b, s)`: the stft slice covers `[b, b+1)` on axis 0 and
`[s*fs, s*fs+fl)` on axis 1 of the static `[d0, d1, d2]` signal. -/
def frameNumel (d0 d1 d2 fs fl b s : Int) : Int :=
  clampExt d0 b (b + 1) * clampExt d1 (s * fs) (s * fs + fl) * d2

def i64ty : ETy := ETy.named "i64"

/-- `zero_const`: scalar i64 constant 0. -/
def zeroC : Term := Term.constI i64ty [] [0]

/-- `step`: Shape{2} i64 constant {1, 1}. -/
def stepC : Term := Term.constI i64ty [2] [1, 1]

/-- `slice_axes`: Shape{2} i64 constant {0, axis} with axis = 1. -/
def axesC : Term := Term.constI i64ty [2] [0, 1]

/-- The `v8::Slice` cut out for frame `(b, s)`:
start {b, s*fs}, stop {b+1, s*fs+fl}, step {1,1}, axes {0,1}. -/
def frameSliceT (fs fl b s : Int) : Term :=
  Term.slice (Term.arg 0)
    (Term.constI i64ty [2] [b, s * fs])
    (Term.constI i64ty [2] [b + 1, s * fs + fl])
    stepC axesC

/-- The reshape pattern for `flatten_slice`: {-1,2} for a complex slice,
{-1} when `onesided` is truthy, {-1,1} otherwise. -/
def flatPattern (complexSlice : Bool) (onesided : Int) : Term :=
  if complexSlice then Term.constI i64ty [2] [-1, 2]
  else if onesided ≠ 0 then Term.constI i64ty [1] [-1]
  else Term.constI i64ty [2] [-1, 1]

/-- `flatten_slice`: the frame slice reshaped (special_zero = false).
The slice keeps the untouched innermost signal axis, so `is_complex(slice)`
holds exactly when `d2 = 2`. -/
def flattenT (d2 fs fl onesided b s : Int) : Term :=
  Term.reshape (frameSliceT fs fl b s) (flatPattern (decide (d2 = 2)) onesided) false

/-- `is_complex(flatten_slice)`: true for the {-1,2} pattern; for the rank-1
{-1} pattern it holds when the inferred flattened extent equals 2; the
{-1,1} pattern ends in a static 1. -/
def complexFlat (d0 d1 d2 fs fl onesided b s : Int) : Bool :=
  if d2 = 2 then true
  else if onesided ≠ 0 then decide (frameNumel d0 d1 d2 fs fl b s = 2)
  else false

/-- The second Multiply operand when a window is provided: the window itself,
or Broadcast(Unsqueeze(window, {1}), ShapeOf(flatten_slice)) when the
flattened slice is complex. -/
def winOperandT (d0 d1 d2 fs fl onesided b s : Int) : Term :=
  if complexFlat d0 d1 d2 fs fl onesided b s then
    Term.broadcast
      (Term.unsqueeze (Term.arg 2) (Term.constI i64ty [1] [1]))
      (Term.shapeOf (flattenT d2 fs fl onesided b s))
  else Term.arg 2

/-- The data operand handed to `dft::make_dft` for frame `(b, s)`. -/
def dftDataT (winP : Bool) (d0 d1 d2 fs fl onesided b s : Int) : Term :=
  if winP then
    Term.multiply (flattenT d2 fs fl onesided b s) (winOperandT d0 d1 d2 fs fl onesided b s)
  else flattenT d2 fs fl onesided b s

/-- The `make_dft` call for frame `(b, s)`: axis 0, not inverse, onesided
exactly when the attribute equals 1; length input 3 when provided, else a
NullNode. -/
def dftT (winP dftP : Bool) (d0 d1 d2 fs fl onesided b s : Int) : Term :=
  Term.makeDFT (dftDataT winP d0 d1 d2 fs fl onesided b s)
    (if dftP then Term.arg 3 else Term.nullNode)
    0 false (onesided = 1)

/-- The single stft output: Concat over batches of
Unsqueeze(Concat over frames of Unsqueeze(dft, 0), 0). -/
def stftOutT (winP dftP : Bool) (d0 d1 d2 fs fl onesided nst : Int) : Term :=
  Term.concat
    ((List.range d0.toNat).map fun b =>
      Term.unsqueeze
        (Term.concat
          ((List.range nst.toNat).map fun s =>
            Term.unsqueeze (dftT winP dftP d0 d1 d2 fs fl onesided (b : Int) (s : Int)) zeroC)
          0)
        zeroC)
    0

/-- `set_17::stft`, core on the fields it reads.  Mirrors the C++ check
sequence; on success builds the framed-DFT concatenation. -/
def stftCore (inputs : List OVValue) (attrInts : List (String × Int)) :
    Except String (List Term) :=
  if ¬ 2 ≤ inputs.length then
    .error "input index out of range"
  else if ¬ constScalarOk (inputs.getD 1 dfltV) then
    .error "frame_step input must be a scalar or single-element constant."
  else if ¬ staticRank3 (inputs.getD 0 dfltV).pshape then
    .error "Shape of signal input must be static with the rank equal to 3."
  else if dftLenProvided inputs ∧ ¬ constScalarOk (inputs.getD 3 dfltV) then
    .error "frame_length input must be a scalar or single-element constant."
  else if winProvided inputs ∧ ¬ winRankOk inputs then
    .error "The rank of window input must be 1D."
  else if winProvided inputs ∧ ¬ winLenOk inputs then
    .error "The length of window input must be equal to frame_length."
  else if getAttrInt attrInts "onesided" 1 = 1 ∧ isComplexP (inputs.getD 0 dfltV).pshape then
    .error "If attribute onesided is 1, signal input can NOT be complex."
  else
    let fs := stftFrameStep inputs
    let fl := stftFrameLength inputs
    let d0 := signalDim inputs 0
    let d1 := signalDim inputs 1
    let d2 := signalDim inputs 2
    let onesided := getAttrInt attrInts "onesided" 1
    let nst := Int.tdiv (d1 - fl) fs + 1
    .ok [stftOutT (winProvided inputs) (dftLenProvided inputs) d0 d1 d2 fs fl onesided nst]

/-- `ov::frontend::onnx::op::set_17::stft`. -/
def stft (node : Node) : Except String (List Term) :=
  stftCore node.inputs node.attrInts

/-! ### scan (set_1 and set_9) -/

/-- Modelled from the spec: `ov::util::normalize_axis` (validation_util.hpp is
not under src/; the spec delegates "validation-utility logic" to the runtime).
Value of the normalized axis: negative axes are shifted by the rank when the
rank is static. -/
def normAxRank (a : Int) (r? : Option Nat) : Int :=
  match r? with
  | some r => if a < 0 then a + r else a
  | none => a

/-- Modelled from the spec: the validity check of `ov::util::normalize_axis`:
with a static rank the axis must lie in `[-rank, rank)`; with a dynamic rank a
negative axis is rejected. -/
def normAxRankOk (a : Int) (r? : Option Nat) : Bool :=
  match r? with
  | some r => decide (-(r : Int) ≤ a) && decide (a < (r : Int))
  | none => decide (0 ≤ a)

/-- Modelled from the spec: runtime Squeeze shape inference ("shape-inference
passes" delegated to the runtime): with a static input rank the axis dimension
is removed. -/
def squeezeShape (p : PShape) (a : Int) : PShape :=
  match p with
  | some ds =>
    if normAxRankOk a (some ds.length) then
      some (ds.eraseIdx (normAxRank a (some ds.length)).toNat)
    else none
  | none => none

/-- Modelled from the spec: runtime Unsqueeze shape inference: with a static
input rank a dimension of extent 1 is inserted at the axis. -/
def unsqueezeShape (p : PShape) (a : Int) : PShape :=
  match p with
  | some ds =>
    if normAxRankOk a (some (ds.length + 1)) then
      some (ds.insertIdx (normAxRank a (some (ds.length + 1))).toNat (some 1))
    else none
  | none => none

/-- The partial shape the runtime assigns to a body term, given the current
parameter shapes. -/
def bpshape (params : List BodyParam) : BTerm → PShape
  | .param i => (params.getD i {}).pshape
  | .squeezeAx t a => squeezeShape (bpshape params t) a
  | .unsqueezeAx t a => unsqueezeShape (bpshape params t) a
  | .lit _ ps => ps
  | .op1 _ ps _ => ps
  | .op2 _ ps _ _ => ps

/-- Replace every occurrence of `param p` used as an operand by
`Squeeze(param p, ax)`. -/
def substAll (p : Nat) (ax : Int) : BTerm → BTerm
  | .param q => if q = p then .squeezeAx (.param p) ax else .param q
  | .squeezeAx t a => .squeezeAx (substAll p ax t) a
  | .unsqueezeAx t a => .unsqueezeAx (substAll p ax t) a
  | .lit i ps => .lit i ps
  | .op1 i ps a => .op1 i ps (substAll p ax a)
  | .op2 i ps a b => .op2 i ps (substAll p ax a) (substAll p ax b)

/-- `input.replace_source_output(squeeze)` over all consumers of `param p`:
a body-output handle that IS the parameter keeps pointing at it (the handle is
not an input port), all interior uses are rerouted through the Squeeze. -/
def replaceConsumers (p : Nat) (ax : Int) (t : BTerm) : BTerm :=
  match t with
  | .param q => .param q
  | t => substAll p ax t

/-- Body inputs alignment (scan): initial-value parameters take the element
type and partial shape of the matching node input. -/
def alignInitial (node_inputs : List OVValue) (bps : List BodyParam)
    (nIV off : Nat) : List BodyParam :=
  bps.mapIdx fun i bp =>
    if i < nIV then
      { pshape := (node_inputs.getD (i + off) dfltV).pshape
        et := (node_inputs.getD (i + off) dfltV).et }
    else bp

/-- The shape assigned to a scan-input body parameter: the node input's shape
with extent 1 at the normalized axis when the rank is static, the unchanged
(dynamic-rank) shape otherwise. -/
def scanParamShape (vIn : OVValue) (rawA : Int) : PShape :=
  match vIn.pshape with
  | some ds => some (ds.set (normAxRank rawA (some ds.length)).toNat (some 1))
  | none => none

/-- The parameter-table effect of iteration `i` of the scan-input loop:
`set_partial_shape` on body parameter `nIV + i` (element type untouched). -/
def scanParamUpd (node_inputs : List OVValue) (axesIn : List Int) (nIV off : Nat)
    (p : List BodyParam) (i : Nat) : List BodyParam :=
  p.set (nIV + i)
    { pshape := scanParamShape (node_inputs.getD (nIV + i + off) dfltV) (axesIn.getD i 0)
      et := (p.getD (nIV + i) {}).et }

/-- The body-results effect of iteration `i` of the scan-input loop: reroute
all consumers of `param (nIV + i)` through the new Squeeze. -/
def scanResUpd (axesIn : List Int) (nIV : Nat) (r : List BTerm) (i : Nat) :
    List BTerm :=
  r.map (replaceConsumers (nIV + i) (axesIn.getD i 0))

/-- One iteration of the scan-input loop of `scan_to_tensor_iterator`:
reshape body parameter `nIV + i` and reroute its consumers through a Squeeze
along the raw attribute axis. -/
def scanStep (node_inputs : List OVValue) (axesIn : List Int) (nIV off : Nat)
    (st : List BodyParam × List BTerm) (i : Nat) : List BodyParam × List BTerm :=
  (scanParamUpd node_inputs axesIn nIV off st.1 i, scanResUpd axesIn nIV st.2 i)

/-- The body rewrite performed by `scan_to_tensor_iterator` before the
TensorIterator is created: initial-value alignment followed by the per-scan
input loop. -/
def scanRewrite (node_inputs : List OVValue) (axesIn : List Int)
    (nIV off nsi : Nat) (bps : List BodyParam) (brs : List BTerm) :
    List BodyParam × List BTerm :=
  (List.range nsi).foldl (scanStep node_inputs axesIn nIV off)
    (alignInitial node_inputs bps nIV off, brs)

/-- Body outputs shape alignment: every scan output (index ≥ nIV) is wrapped
in an Unsqueeze along the raw attribute axis. -/
def unsqueezeOutputs (brs : List BTerm) (axesOut : List Int) (nIV : Nat) :
    List BTerm :=
  brs.mapIdx fun k t =>
    if nIV ≤ k then .unsqueezeAx t (axesOut.getD (k - nIV) 0) else t

/-- One `set_sliced_input` registration. -/
structure SlicedInputDesc where
  paramIdx : Nat
  inputIdx : Nat
  start : Int
  stride : Int
  partSize : Int
  stop : Int
  axis : Int
deriving DecidableEq, Repr

/-- One `set_merged_input` (back edge) registration. -/
structure MergedInputDesc where
  paramIdx : Nat
  inputIdx : Nat
  bodyOut : BTerm
deriving DecidableEq, Repr

/-- The single `v0::TensorIterator` built by the scan translation. -/
structure TensorIteratorDesc where
  bodyParams : List BodyParam
  bodyResults : List BTerm
  sliced : List SlicedInputDesc
  merged : List MergedInputDesc
deriving DecidableEq, Repr

/-- An output of the scan translation: `get_iter_value(out, iter)` or
`get_concatenated_slices(out, start, stride, part_size, end, axis)` of the
TensorIterator. -/
inductive ScanOutput where
  | iterValue (ti : TensorIteratorDesc) (out : BTerm) (iter : Int)
  | concatSlices (ti : TensorIteratorDesc) (out : BTerm)
      (start stride partSize stop axis : Int)
deriving DecidableEq, Repr

/-- Validity of the axis normalizations performed for scan input `i` (the body
loop normalizes against the static input rank; `set_sliced_input` normalizes
against the possibly dynamic rank — together: `normAxRankOk` on the input's
rank). -/
def scanInputAxOk (node_inputs : List OVValue) (axesIn : List Int)
    (nIV off i : Nat) : Bool :=
  normAxRankOk (axesIn.getD i 0)
    (rankOf (node_inputs.getD (nIV + i + off) dfltV).pshape)

/-- Validity of the axis normalization for scan output `j`, against the rank
of the unsqueezed body output. -/
def scanOutputAxOk (params2 : List BodyParam) (bres2 : List BTerm)
    (axesOut : List Int) (nIV j : Nat) : Bool :=
  normAxRankOk (axesOut.getD j 0)
    (rankOf (bpshape params2 (bres2.getD (nIV + j) (.param 0))))

/-- The final body parameters after the rewrite (the Parameter vector the
`ov::Model` body is created from). -/
def scanBodyParamsFinal (node_inputs : List OVValue) (bps : List BodyParam)
    (nsi : Nat) (axesIn : List Int) (brs : List BTerm) (off : Nat) :
    List BodyParam :=
  (scanRewrite node_inputs axesIn (bps.length - nsi) off nsi bps brs).1

/-- The final body results after the rewrite and the scan-output Unsqueezes
(the Result vector the `ov::Model` body is created from). -/
def scanBodyResultsFinal (node_inputs : List OVValue) (bps : List BodyParam)
    (nsi : Nat) (axesIn axesOut : List Int) (brs : List BTerm) (off : Nat) :
    List BTerm :=
  unsqueezeOutputs
    (scanRewrite node_inputs axesIn (bps.length - nsi) off nsi bps brs).2
    axesOut (bps.length - nsi)

/-- The fully set up TensorIterator: rewritten body, sliced inputs for the scan
inputs (direction-dependent start/stride/end), merged back edges for the
state variables. -/
def scanTIdesc (node_inputs : List OVValue) (bps : List BodyParam)
    (brs : List BTerm) (nsi : Nat)
    (axesIn dirsIn axesOut : List Int) (off : Nat) : TensorIteratorDesc :=
  let nIV := bps.length - nsi
  let bres2 := scanBodyResultsFinal node_inputs bps nsi axesIn axesOut brs off
  { bodyParams := scanBodyParamsFinal node_inputs bps nsi axesIn brs off
    bodyResults := bres2
    sliced := (List.range nsi).map fun i =>
      { paramIdx := nIV + i
        inputIdx := nIV + i + off
        start := if dirsIn.getD i 0 ≠ 0 then -1 else 0
        stride := if dirsIn.getD i 0 ≠ 0 then -1 else 1
        partSize := 1
        stop := if dirsIn.getD i 0 ≠ 0 then 0 else -1
        axis := normAxRank (axesIn.getD i 0)
          (rankOf (node_inputs.getD (nIV + i + off) dfltV).pshape) }
    merged := (List.range nIV).map fun i =>
      { paramIdx := i, inputIdx := i + off, bodyOut := bres2.getD i (.param 0) } }

/-- The output vector of the scan translation: per state variable the final
iteration value of the merged body output, then per scan output the
concatenated slices with direction-dependent parameters. -/
def scanOutputsList (node_inputs : List OVValue) (bps : List BodyParam)
    (brs : List BTerm) (nsi : Nat)
    (axesIn dirsIn axesOut dirsOut : List Int) (off : Nat) : List ScanOutput :=
  let nIV := bps.length - nsi
  let nSO := brs.length - nIV
  let ti := scanTIdesc node_inputs bps brs nsi axesIn dirsIn axesOut off
  let bres2 := scanBodyResultsFinal node_inputs bps nsi axesIn axesOut brs off
  ((List.range nIV).map fun i =>
    ScanOutput.iterValue ti (bres2.getD i (.param 0)) (-1)) ++
  ((List.range nSO).map fun j =>
    ScanOutput.concatSlices ti (bres2.getD (nIV + j) (.param 0))
      (if dirsOut.getD j 0 ≠ 0 then -1 else 0)
      (if dirsOut.getD j 0 ≠ 0 then -1 else 1)
      1
      (if dirsOut.getD j 0 ≠ 0 then 0 else -1)
      (normAxRank (axesOut.getD j 0)
        (rankOf (bpshape (scanBodyParamsFinal node_inputs bps nsi axesIn brs off)
          (bres2.getD (nIV + j) (.param 0))))))

/-- `scan_to_tensor_iterator` (op/scan.cpp).  The C++ throws from
`normalize_axis` at the first out-of-range axis; the model performs the same
checks up front — the translation fails exactly when some check fails, and the
success value is identical. -/
def scan_to_tensor_iterator (node_inputs : List OVValue) (bps : List BodyParam)
    (brs : List BTerm) (nsi : Nat)
    (axesIn dirsIn axesOut dirsOut : List Int) (off : Nat) :
    Except String (List ScanOutput) :=
  if ((List.range nsi).all fun i =>
        scanInputAxOk node_inputs axesIn (bps.length - nsi) off i) &&
      ((List.range (brs.length - (bps.length - nsi))).all fun j =>
        scanOutputAxOk (scanBodyParamsFinal node_inputs bps nsi axesIn brs off)
          (scanBodyResultsFinal node_inputs bps nsi axesIn axesOut brs off)
          axesOut (bps.length - nsi) j) then
    .ok (scanOutputsList node_inputs bps brs nsi axesIn dirsIn axesOut dirsOut off)
  else .error "normalize_axis: axis out of range"

/-- `import_onnx_scan`, core on the node fields it reads: resolves the body
subgraph, the `num_scan_inputs` attribute (no default — missing means failure),
and the four axis/direction attribute vectors with their defaults, then calls
`scan_to_tensor_iterator`. -/
def scanImportCore (inputs : List OVValue) (attrInts : List (String × Int))
    (attrIntLists : List (String × List Int)) (bodyG : Option BodyGraph)
    (default_axis : Int) (off : Nat) (dirName : String) :
    Except String (List ScanOutput) :=
  match bodyG with
  | none => .error "missing body subgraph"
  | some body =>
    match attrInts.lookup "num_scan_inputs" with
    | none => .error "missing num_scan_inputs attribute"
    | some nsiI =>
      let nsi := nsiI.toNat
      let nIV := body.params.length - nsi
      let nSO := body.results.length - nIV
      let axesIn := getAttrIntList attrIntLists "scan_input_axes"
        (List.replicate nsi default_axis)
      let dirsIn := getAttrIntList attrIntLists dirName (List.replicate nsi 0)
      let axesOut := getAttrIntList attrIntLists "scan_output_axes"
        (List.replicate nSO default_axis)
      let dirsOut := getAttrIntList attrIntLists "scan_output_directions"
        (List.replicate nSO 0)
      scan_to_tensor_iterator inputs body.params body.results nsi
        axesIn dirsIn axesOut dirsOut off

/-- `import_onnx_scan` at node level. -/
def import_onnx_scan (node : Node) (default_axis : Int) (off : Nat)
    (dirName : String) : Except String (List ScanOutput) :=
  scanImportCore node.inputs node.attrInts node.attrIntLists node.body
    default_axis off dirName

/-- `set_1::scan`, core: asserts that input 0 (`sequence_lens`) is null, then
delegates with default axis 1, input offset 1 and direction attribute
"directions". -/
def scan1Core (inputs : List OVValue) (attrInts : List (String × Int))
    (attrIntLists : List (String × List Int)) (bodyG : Option BodyGraph) :
    Except String (List ScanOutput) :=
  match inputs[0]? with
  | none => .error "input index out of range"
  | some v0 =>
    if v0.isNull then
      scanImportCore inputs attrInts attrIntLists bodyG 1 1 "directions"
    else .error "ONNX Scan-8 sequence_lens input is not supported"

/-- `ov::frontend::onnx::op::set_1::scan`. -/
def scan_1 (node : Node) : Except String (List ScanOutput) :=
  scan1Core node.inputs node.attrInts node.attrIntLists node.body

/-- `ov::frontend::onnx::op::set_9::scan`: imports with default axis 0, input
offset 0 and direction attribute "scan_input_directions", with no
sequence_lens check. -/
def scan_9 (node : Node) : Except String (List ScanOutput) :=
  scanImportCore node.inputs node.attrInts node.attrIntLists node.body
    0 0 "scan_input_directions"

/-! ### Claim-side (specification) definitions -/

/-- Claim C1's frame length: "frame_length defaulting to the signal's axis-1
length divided by frame_step (or taken from the constant dft_length input when
provided)". -/
def specC1FrameLength (ins : List OVValue) : Int :=
  if dftLenProvided ins then castVec0 (ins.getD 3 dfltV)
  else Int.tdiv (signalDim ins 1) (stftFrameStep ins)

/-- Claim C1's frame count:
"nstfts = (signal_axis1_length - frame_length) / frame_step + 1". -/
def specC1Nstfts (ins : List OVValue) : Int :=
  Int.tdiv (signalDim ins 1 - specC1FrameLength ins) (stftFrameStep ins) + 1

/-- Claim C1's frame `(b, s)`: the slice of the signal covering rows
`[b, b+1)` on axis 0 and `[s*frame_step, s*frame_step+frame_length)` on
axis 1 (flattened by the code's Reshape before the DFT). -/
def specC1Frame (ins : List OVValue) (attrInts : List (String × Int))
    (b s : Int) : Term :=
  Term.reshape
    (Term.slice (Term.arg 0)
      (Term.constI i64ty [2] [b, s * stftFrameStep ins])
      (Term.constI i64ty [2] [b + 1, s * stftFrameStep ins + specC1FrameLength ins])
      stepC axesC)
    (flatPattern (decide (signalDim ins 2 = 2)) (getAttrInt attrInts "onesided" 1))
    false

/-- Claim C1's DFT input: "each frame (multiplied elementwise by the window
input when one is provided)". -/
def specC1DftData (ins : List OVValue) (attrInts : List (String × Int))
    (b s : Int) : Term :=
  if winProvided ins then
    Term.multiply (specC1Frame ins attrInts b s)
      (winOperandT (signalDim ins 0) (signalDim ins 1) (signalDim ins 2)
        (stftFrameStep ins) (specC1FrameLength ins)
        (getAttrInt attrInts "onesided" 1) b s)
  else specC1Frame ins attrInts b s

/-- Claim C3's failure disjunction as stated (five conditions; note it does
NOT list the dft_length constant-form check). -/
def c3ClaimFails (ins : List OVValue) (attrInts : List (String × Int)) : Bool :=
  !constScalarOk (ins.getD 1 dfltV) ||
  !staticRank3 (ins.getD 0 dfltV).pshape ||
  (winProvided ins && !winRankOk ins) ||
  (winProvided ins && !winLenOk ins) ||
  (decide (getAttrInt attrInts "onesided" 1 = 1) && isComplexP (ins.getD 0 dfltV).pshape)

/-- The failure condition claim C3 misses: a provided dft_length input that is
not a scalar or single-element constant. -/
def c3DftLenFails (ins : List OVValue) : Bool :=
  dftLenProvided ins && !constScalarOk (ins.getD 3 dfltV)

/-- The amended C3 failure disjunction: the five stated conditions plus the
dft_length constant-form condition. -/
def c3AmendedFails (ins : List OVValue) (attrInts : List (String × Int)) : Bool :=
  c3ClaimFails ins attrInts || c3DftLenFails ins

/-- Claim C5's target element type: the mapped dtype attribute when present,
otherwise the element type of input 0. -/
def rnTargetType (node : Node) : ETy :=
  match node.attrInts.lookup "dtype" with
  | some d => get_ov_element_type d
  | none => (node.inputs.getD 0 dfltV).et

/-- The node with its identity data blanked: what remains is exactly the
argument data (inputs, attributes, subgraphs) a translation call receives. -/
def Node.stripName (n : Node) : Node := { n with name := "" }

/-- Claim C9's simultaneous rewrite on operand positions: each occurrence of a
scan-input parameter (indices `nIV ≤ q < nIV + nsi`) becomes
`Squeeze(param q, scan_input_axes[q - nIV])`. -/
def simSubstF (nIV nsi : Nat) (axes : List Int) : BTerm → BTerm
  | .param q =>
    if nIV ≤ q ∧ q < nIV + nsi then .squeezeAx (.param q) (axes.getD (q - nIV) 0)
    else .param q
  | .squeezeAx t a => .squeezeAx (simSubstF nIV nsi axes t) a
  | .unsqueezeAx t a => .unsqueezeAx (simSubstF nIV nsi axes t) a
  | .lit i ps => .lit i ps
  | .op1 i ps a => .op1 i ps (simSubstF nIV nsi axes a)
  | .op2 i ps a b => .op2 i ps (simSubstF nIV nsi axes a) (simSubstF nIV nsi axes b)

/-- Claim C9's rewrite of one body output: operand occurrences are rerouted
through Squeezes, while a body output that IS a parameter keeps denoting it. -/
def scanSubstSpec (nIV nsi : Nat) (axes : List Int) (t : BTerm) : BTerm :=
  match t with
  | .param q => .param q
  | t => simSubstF nIV nsi axes t

/-- The sequential application of the per-scan input consumer rewrites
(iteration order of the C++ loop). -/
def seqApply (nIV : Nat) (axes : List Int) : Nat → BTerm → BTerm
  | 0, t => t
  | n + 1, t => replaceConsumers (nIV + n) (axes.getD n 0) (seqApply nIV axes n t)

/-! ### Concrete nodes used by witnesses and counterexamples -/

def okOrT (e : Except String (List Term)) : List Term :=
  match e with
  | .ok v => v
  | .error _ => []

def okOrScan (e : Except String (List ScanOutput)) : List ScanOutput :=
  match e with
  | .ok v => v
  | .error _ => []

/-- A static `[2, 4, 1]` signal value. -/
def wSigV : OVValue := { pshape := some [some 2, some 4, some 1] }

/-- A Shape{1} constant frame_step with value 2. -/
def wFsV : OVValue := { pshape := some [some 1], constVals := some [2] }

/-- A well-formed stft node: signal `[2,4,1]`, frame_step 2, no window, no
dft_length. -/
def wStftNode : Node := { inputs := [wSigV, wFsV] }

/-- A null (absent) optional input. -/
def cexNullV : OVValue := { isNull := true }

/-- A non-constant dft_length input. -/
def cexDftV : OVValue := { pshape := some [some 1] }

/-- An stft node whose only defect is a non-constant dft_length input. -/
def cexC3Node : Node := { inputs := [wSigV, wFsV, cexNullV, cexDftV] }

/-- An stft node with a Shape{1} constant frame_step of value `v`. -/
def c10Node (v : Int) : Node :=
  { inputs := [wSigV, { pshape := some [some 1], constVals := some [v] }] }

/-- An example scan body: one state variable, one scan input, one scan
output. -/
def exBody : BodyGraph :=
  { params := [{ pshape := some [some 3] }, { pshape := some [some 5, some 3] }]
    results := [BTerm.param 0, BTerm.op2 7 (some [some 3]) (BTerm.param 0) (BTerm.param 1)] }

def exInit : OVValue := { pshape := some [some 3] }

def exScanIn : OVValue := { pshape := some [some 5, some 3] }

/-- An opset-9 scan node over `exBody`. -/
def exScanNode : Node :=
  { inputs := [exInit, exScanIn]
    attrInts := [("num_scan_inputs", 1)]
    body := some exBody }

/-- An opset-1 scan node over `exBody` (null sequence_lens at input 0). -/
def exScanNode1 : Node :=
  { inputs := [cexNullV, exInit, exScanIn]
    attrInts := [("num_scan_inputs", 1)]
    body := some exBody }

def exV : OVValue := {}

def exScatterNode : Node := { inputs := [exV, exV, exV] }

def exRnlNode : Node := { inputs := [{ et := ETy.named "f16" }] }

def exSqrtNode : Node := { inputs := [exV] }

def exMulNode : Node := { inputs := [exV, exV] }

def exN1 : Node := { name := "a", inputs := [exV] }

def exN2 : Node := { name := "b", inputs := [exV] }

/-- An opset-1 scan node with a non-null input 0 (`sequence_lens` given). -/
def exScanBadNode : Node :=
  { inputs := [exInit, exInit, exScanIn]
    attrInts := [("num_scan_inputs", 1)]
    body := some exBody }

def dfltScanOut : ScanOutput := .iterValue ⟨[], [], [], []⟩ (.param 0) 0

def dfltMerged : MergedInputDesc := ⟨0, 0, .param 0⟩

def dfltSliced : SlicedInputDesc := ⟨0, 0, 0, 0, 0, 0, 0⟩

/-! ### Theorems -/

/-- `ng_inputs.at(i)` succeeds on an in-range index. -/
theorem ngAt_ok {l : List OVValue} {n : Nat} (h : n < l.length) :
    ngAt l n = .ok (l.getD n dfltV) := by
  simp [ngAt, List.getElem?_eq_getElem h, List.getD_eq_getElem?_getD]

/-- C8: a sqrt node with an input 0 translates to exactly one output, the
elementwise Sqrt of input 0; an opset-7 mul node with inputs 0 and 1
translates to exactly one output, the elementwise Multiply of inputs 0 and 1;
neither result mentions any other input. -/
theorem c8_sqrt_mul (node : Node) :
    (1 ≤ node.inputs.length → sqrt_1 node = .ok [Term.sqrtOp (Term.arg 0)]) ∧
    (2 ≤ node.inputs.length →
      mul_7 node = .ok [Term.multiply (Term.arg 0) (Term.arg 1)]) := by
  constructor
  · intro h
    simp [sqrt_1, sqrtCore, ngAt_ok (by omega : 0 < node.inputs.length),
      Bind.bind, Except.bind, Pure.pure, Except.pure]
  · intro h
    simp [mul_7, mulCore, ngAt_ok (by omega : 0 < node.inputs.length),
      ngAt_ok (by omega : 1 < node.inputs.length), Bind.bind, Except.bind, Pure.pure, Except.pure]

/-- C8 witness: concrete sqrt and mul nodes. -/
theorem c8_sqrt_mul_witness :
    1 ≤ exSqrtNode.inputs.length ∧
    sqrt_1 exSqrtNode = .ok [Term.sqrtOp (Term.arg 0)] ∧
    2 ≤ exMulNode.inputs.length ∧
    mul_7 exMulNode = .ok [Term.multiply (Term.arg 0) (Term.arg 1)] :=
  ⟨by decide, (c8_sqrt_mul exSqrtNode).1 (by decide), by decide,
    (c8_sqrt_mul exMulNode).2 (by decide)⟩

/-- C4: a scatter_nd node with inputs 0..2 fails exactly when it carries a
"reduction" attribute with a value different from "none"; otherwise it yields
exactly the single output ScatterNDUpdate(data, indices, updates). -/
theorem c4_scatter_nd (node : Node) (h : 3 ≤ node.inputs.length) :
    ((∃ e, scatter_nd_1 node = .error e) ↔
      ((node.attrStrs.lookup "reduction").isSome = true ∧
        getAttrStr node.attrStrs "reduction" "none" ≠ "none")) ∧
    (((node.attrStrs.lookup "reduction").isSome = true →
        getAttrStr node.attrStrs "reduction" "none" = "none") →
      scatter_nd_1 node =
        .ok [Term.scatterNDUpdate (Term.arg 0) (Term.arg 1) (Term.arg 2)]) := by
  have h0 := ngAt_ok (l := node.inputs) (n := 0) (by omega)
  have h1 := ngAt_ok (l := node.inputs) (n := 1) (by omega)
  have h2 := ngAt_ok (l := node.inputs) (n := 2) (by omega)
  by_cases hs : (node.attrStrs.lookup "reduction").isSome = true
  · by_cases hv : getAttrStr node.attrStrs "reduction" "none" = "none"
    · simp [scatter_nd_1, scatterNdCore, h0, h1, h2, hs, hv, Bind.bind, Except.bind, Pure.pure, Except.pure]
    · simp [scatter_nd_1, scatterNdCore, h0, h1, h2, hs, hv, Bind.bind, Except.bind, Pure.pure, Except.pure]
  · simp [scatter_nd_1, scatterNdCore, h0, h1, h2, hs, Bind.bind, Except.bind, Pure.pure, Except.pure]

/-- C4 witness: a scatter_nd node with three inputs and no reduction
attribute. -/
theorem c4_scatter_nd_witness :
    3 ≤ exScatterNode.inputs.length ∧
    scatter_nd_1 exScatterNode =
      .ok [Term.scatterNDUpdate (Term.arg 0) (Term.arg 1) (Term.arg 2)] :=
  ⟨by decide, (c4_scatter_nd exScatterNode (by decide)).2 (by simp [exScatterNode])⟩

/-- C5: a successful random_normal_like translation yields the random-normal
constructor applied to ShapeOf(input 0), the target element type (mapped dtype
attribute when present, else input 0's element type), mean and scale wrapped
as single-element constants of the target type (defaults 0.0 and 1.0), and the
seed attribute (default 0.0). -/
theorem c5_random_normal_like (node : Node) (outs : List Term)
    (h : random_normal_like_1 node = .ok outs) :
    outs = [Term.randomNormal (Term.shapeOf (Term.arg 0)) (rnTargetType node)
      (Term.constF (rnTargetType node) [1] [getAttrF node.attrFloats "mean" 0])
      (Term.constF (rnTargetType node) [1] [getAttrF node.attrFloats "scale" 1])
      (getAttrF node.attrFloats "seed" 0)] := by
  unfold random_normal_like_1 randomNormalLikeCore at h
  cases hx : node.inputs[0]? with
  | none => simp [ngAt, hx] at h
  | some v =>
    have hgd : node.inputs.getD 0 dfltV = v := by
      simp [List.getD, hx]
    cases hdt : node.attrInts.lookup "dtype" with
    | none =>
      simp [ngAt, hx, make_random_normal, hdt, rnTargetType, hgd] at h ⊢
      exact h.symm
    | some d =>
      simp [ngAt, hx, make_random_normal, hdt, rnTargetType, hgd] at h ⊢
      exact h.symm

/-- C5 witness: a random_normal_like node with one input and no attributes. -/
theorem c5_random_normal_like_witness :
    random_normal_like_1 exRnlNode = .ok (okOrT (random_normal_like_1 exRnlNode)) ∧
    okOrT (random_normal_like_1 exRnlNode) =
      [Term.randomNormal (Term.shapeOf (Term.arg 0)) (rnTargetType exRnlNode)
        (Term.constF (rnTargetType exRnlNode) [1] [getAttrF exRnlNode.attrFloats "mean" 0])
        (Term.constF (rnTargetType exRnlNode) [1] [getAttrF exRnlNode.attrFloats "scale" 1])
        (getAttrF exRnlNode.attrFloats "seed" 0)] :=
  ⟨rfl, c5_random_normal_like exRnlNode (okOrT (random_normal_like_1 exRnlNode)) rfl⟩

/-- C6: the opset-1 scan translation fails whenever input 0 (sequence_lens) is
non-null, and when it is null delegates to the shared import with default scan
axis 1, input offset 1 and direction attribute name "directions"; the opset-9
translation unconditionally delegates with default axis 0, offset 0 and
direction attribute name "scan_input_directions". -/
theorem c6_scan_dispatch :
    (∀ (node : Node) (v0 : OVValue), node.inputs[0]? = some v0 →
      (v0.isNull = false → ∃ e, scan_1 node = .error e) ∧
      (v0.isNull = true → scan_1 node = import_onnx_scan node 1 1 "directions")) ∧
    (∀ node : Node, scan_9 node = import_onnx_scan node 0 0 "scan_input_directions") := by
  refine ⟨fun node v0 h0 => ⟨?_, ?_⟩, fun node => rfl⟩
  · intro hnull
    simp [scan_1, scan1Core, h0, hnull]
  · intro hnull
    simp [scan_1, scan1Core, import_onnx_scan, h0, hnull]

/-- C6 witness: a null-sequence_lens opset-1 node delegates; a non-null one
fails. -/
theorem c6_scan_dispatch_witness :
    exScanNode1.inputs[0]? = some cexNullV ∧
    scan_1 exScanNode1 = import_onnx_scan exScanNode1 1 1 "directions" ∧
    (∃ e, scan_1 exScanBadNode = .error e) :=
  ⟨rfl, (c6_scan_dispatch.1 exScanNode1 cexNullV rfl).2 rfl,
    (c6_scan_dispatch.1 exScanBadNode exInit rfl).1 rfl⟩

/-- C7: the six translations are pure functions of the call's arguments: two
nodes carrying the same inputs, attributes and subgraphs (identity data may
differ) translate to structurally identical results; no state outside the
arguments influences or survives a call. -/
theorem c7_stateless (a b : Node) (h : Node.stripName a = Node.stripName b) :
    sqrt_1 a = sqrt_1 b ∧ mul_7 a = mul_7 b ∧ scatter_nd_1 a = scatter_nd_1 b ∧
    random_normal_like_1 a = random_normal_like_1 b ∧ stft a = stft b ∧
    scan_1 a = scan_1 b ∧ scan_9 a = scan_9 b := by
  have hin' := congrArg Node.inputs h
  have hai' := congrArg Node.attrInts h
  have haf' := congrArg Node.attrFloats h
  have has' := congrArg Node.attrStrs h
  have hal' := congrArg Node.attrIntLists h
  have hb' := congrArg Node.body h
  have hin : a.inputs = b.inputs := hin'
  have hai : a.attrInts = b.attrInts := hai'
  have haf : a.attrFloats = b.attrFloats := haf'
  have has : a.attrStrs = b.attrStrs := has'
  have hal : a.attrIntLists = b.attrIntLists := hal'
  have hb : a.body = b.body := hb'
  refine ⟨?_, ?_, ?_, ?_, ?_, ?_, ?_⟩
  · show sqrtCore a.inputs = sqrtCore b.inputs
    rw [hin]
  · show mulCore a.inputs = mulCore b.inputs
    rw [hin]
  · show scatterNdCore a.inputs a.attrStrs = scatterNdCore b.inputs b.attrStrs
    rw [hin, has]
  · show randomNormalLikeCore a.inputs a.attrInts a.attrFloats =
      randomNormalLikeCore b.inputs b.attrInts b.attrFloats
    rw [hin, hai, haf]
  · show stftCore a.inputs a.attrInts = stftCore b.inputs b.attrInts
    rw [hin, hai]
  · show scan1Core a.inputs a.attrInts a.attrIntLists a.body =
      scan1Core b.inputs b.attrInts b.attrIntLists b.body
    rw [hin, hai, hal, hb]
  · show scanImportCore a.inputs a.attrInts a.attrIntLists a.body 0 0 "scan_input_directions" =
      scanImportCore b.inputs b.attrInts b.attrIntLists b.body 0 0 "scan_input_directions"
    rw [hin, hai, hal, hb]

/-- C7 witness: two nodes differing only in identity data translate
identically. -/
theorem c7_stateless_witness :
    Node.stripName exN1 = Node.stripName exN2 ∧ sqrt_1 exN1 = sqrt_1 exN2 :=
  ⟨by decide, (c7_stateless exN1 exN2 (by decide)).1⟩

/-- C10 counterexample: a Shape{1} constant frame_step with value 0 passes the
frame_step validation, the extracted frame_step (the divisor of the default
frame_length division) is 0, and the translation proceeds to an output —
refuting "the validation of the frame_step input guarantees frame_step is not
0 before the division is evaluated". -/
theorem c10_cex :
    constScalarOk ((c10Node 0).inputs.getD 1 dfltV) = true ∧
    stftFrameStep (c10Node 0).inputs = 0 ∧
    (stft (c10Node 0)).isOk = true :=
  ⟨rfl, rfl, rfl⟩

/-- C10 amended: the frame_step validation constrains only the form of the
input (a scalar or Shape{1} constant), not its value: every value v, including
0, passes it, the extracted divisor equals v, and the default frame_length is
computed as the axis-1 length tdiv v. -/
theorem c10_amended : ∀ v : Int,
    constScalarOk ((c10Node v).inputs.getD 1 dfltV) = true ∧
    stftFrameStep (c10Node v).inputs = v ∧
    stftFrameLength (c10Node v).inputs = Int.tdiv 4 v := by
  intro v
  exact ⟨rfl, rfl, rfl⟩

/-- C3 counterexample: an stft node whose only defect is a provided
non-constant dft_length input fails, while none of the five failure conditions
listed by the claim holds. -/
theorem c3_cex :
    (stft cexC3Node).isOk = false ∧
    c3ClaimFails cexC3Node.inputs cexC3Node.attrInts = false :=
  ⟨rfl, rfl⟩

/-! ### List helper lemmas for the scan proofs -/

theorem getD_map_range {α : Type} (f : Nat → α) (n i : Nat) (hi : i < n) (d : α) :
    ((List.range n).map f).getD i d = f i := by
  simp [List.getD_eq_getElem?_getD, List.getElem?_map, List.getElem?_range hi]

theorem getD_append_map_range_left {α : Type} (f g : Nat → α) (nIV nSO i : Nat)
    (hi : i < nIV) (d : α) :
    ((((List.range nIV).map f) ++ ((List.range nSO).map g)).getD i d) = f i := by
  have hlt : i < ((List.range nIV).map f).length := by
    simpa using hi
  rw [List.getD_eq_getElem?_getD, List.getElem?_append, if_pos hlt]
  simp [List.getElem?_map, List.getElem?_range hi]

theorem getD_append_map_range_right {α : Type} (f g : Nat → α) (nIV nSO j : Nat)
    (hj : j < nSO) (d : α) :
    ((((List.range nIV).map f) ++ ((List.range nSO).map g)).getD (nIV + j) d) = g j := by
  have hge : ((List.range nIV).map f).length ≤ nIV + j := by
    simp
  rw [List.getD_eq_getElem?_getD, List.getElem?_append_right hge]
  simp [List.getElem?_map, List.getElem?_range hj]

/-! ### The scan body rewrite: fold characterization -/

theorem scanRewrite_eq (node_inputs : List OVValue) (axesIn : List Int)
    (nIV off nsi : Nat) (bps : List BodyParam) (brs : List BTerm) :
    scanRewrite node_inputs axesIn nIV off nsi bps brs =
      ((List.range nsi).foldl (scanParamUpd node_inputs axesIn nIV off)
          (alignInitial node_inputs bps nIV off),
        (List.range nsi).foldl (scanResUpd axesIn nIV) brs) := by
  unfold scanRewrite
  have key : ∀ (l : List Nat) (st : List BodyParam × List BTerm),
      l.foldl (scanStep node_inputs axesIn nIV off) st =
        (l.foldl (scanParamUpd node_inputs axesIn nIV off) st.1,
          l.foldl (scanResUpd axesIn nIV) st.2) := by
    intro l
    induction l with
    | nil => intro st; rfl
    | cons x xs ih =>
      intro st
      rw [List.foldl_cons, List.foldl_cons, List.foldl_cons, ih]
      rfl
  exact key _ _

theorem simSubstF_zero (nIV : Nat) (axes : List Int) (t : BTerm) :
    simSubstF nIV 0 axes t = t := by
  induction t with
  | param q =>
    rw [simSubstF, if_neg (by omega)]
  | squeezeAx t a iht => rw [simSubstF, iht]
  | unsqueezeAx t a iht => rw [simSubstF, iht]
  | lit i ps => rfl
  | op1 i ps a iha => rw [simSubstF, iha]
  | op2 i ps a b iha ihb => rw [simSubstF, iha, ihb]

theorem substAll_simSubstF (nIV n : Nat) (axes : List Int) (t : BTerm) :
    substAll (nIV + n) (axes.getD n 0) (simSubstF nIV n axes t) =
      simSubstF nIV (n + 1) axes t := by
  induction t with
  | param q =>
    by_cases h1 : nIV ≤ q ∧ q < nIV + n
    · have hne : ¬ q = nIV + n := by omega
      have h2 : nIV ≤ q ∧ q < nIV + (n + 1) := by omega
      simp [simSubstF, h1, h2, substAll, hne]
    · by_cases he : q = nIV + n
      · subst he
        have h2 : nIV ≤ nIV + n ∧ nIV + n < nIV + (n + 1) := by omega
        simp [simSubstF, h1, h2, substAll]
      · have h2 : ¬ (nIV ≤ q ∧ q < nIV + (n + 1)) := by omega
        simp [simSubstF, h1, h2, substAll, he]
  | squeezeAx t a iht =>
    simp only [simSubstF, substAll]
    rw [iht]
  | unsqueezeAx t a iht =>
    simp only [simSubstF, substAll]
    rw [iht]
  | lit i ps => simp only [simSubstF, substAll]
  | op1 i ps a iha =>
    simp only [simSubstF, substAll]
    rw [iha]
  | op2 i ps a b iha ihb =>
    simp only [simSubstF, substAll]
    rw [iha, ihb]

theorem seqApply_eq_spec (nIV : Nat) (axes : List Int) :
    ∀ (n : Nat) (t : BTerm),
      seqApply nIV axes n t = scanSubstSpec nIV n axes t := by
  intro n
  induction n with
  | zero =>
    intro t
    cases t <;> simp [seqApply, scanSubstSpec, simSubstF_zero]
  | succ n ih =>
    intro t
    rw [seqApply, ih]
    cases t with
    | param q => simp [scanSubstSpec, replaceConsumers]
    | squeezeAx t a =>
      simp only [scanSubstSpec, simSubstF, replaceConsumers]
      rw [← simSubstF]
      exact substAll_simSubstF nIV n axes (.squeezeAx t a)
    | unsqueezeAx t a =>
      simp only [scanSubstSpec, simSubstF, replaceConsumers]
      rw [← simSubstF]
      exact substAll_simSubstF nIV n axes (.unsqueezeAx t a)
    | lit i ps =>
      simp only [scanSubstSpec, simSubstF, replaceConsumers]
      exact substAll_simSubstF nIV n axes (.lit i ps)
    | op1 i ps a =>
      simp only [scanSubstSpec, simSubstF, replaceConsumers]
      rw [← simSubstF]
      exact substAll_simSubstF nIV n axes (.op1 i ps a)
    | op2 i ps a b =>
      simp only [scanSubstSpec, simSubstF, replaceConsumers]
      rw [← simSubstF]
      exact substAll_simSubstF nIV n axes (.op2 i ps a b)

theorem foldl_scanResUpd_eq (axesIn : List Int) (nIV : Nat) :
    ∀ (n : Nat) (brs : List BTerm),
      (List.range n).foldl (scanResUpd axesIn nIV) brs =
        brs.map (seqApply nIV axesIn n) := by
  intro n
  induction n with
  | zero =>
    intro brs
    simp [seqApply]
  | succ n ih =>
    intro brs
    rw [List.range_succ, List.foldl_append, List.foldl_cons, List.foldl_nil, ih]
    simp only [scanResUpd]
    rw [List.map_map]
    rfl

theorem foldl_scanParamUpd_length (node_inputs : List OVValue) (axesIn : List Int)
    (nIV off : Nat) :
    ∀ (n : Nat) (p : List BodyParam),
      ((List.range n).foldl (scanParamUpd node_inputs axesIn nIV off) p).length =
        p.length := by
  intro n
  induction n with
  | zero => intro p; rfl
  | succ n ih =>
    intro p
    rw [List.range_succ, List.foldl_append, List.foldl_cons, List.foldl_nil]
    simp only [scanParamUpd]
    rw [List.length_set, ih]

theorem foldl_scanParamUpd_untouched (node_inputs : List OVValue) (axesIn : List Int)
    (nIV off : Nat) :
    ∀ (n : Nat) (p : List BodyParam) (k : Nat), (∀ j, j < n → k ≠ nIV + j) →
      ((List.range n).foldl (scanParamUpd node_inputs axesIn nIV off) p).getD k {} =
        p.getD k {} := by
  intro n
  induction n with
  | zero => intro p k _; rfl
  | succ n ih =>
    intro p k hk
    rw [List.range_succ, List.foldl_append, List.foldl_cons, List.foldl_nil]
    simp only [scanParamUpd]
    rw [List.getD_eq_getElem?_getD,
      List.getElem?_set_ne (by exact fun he => hk n (by omega) he.symm),
      ← List.getD_eq_getElem?_getD]
    exact ih p k fun j hj => hk j (by omega)

theorem foldl_scanParamUpd_getD (node_inputs : List OVValue) (axesIn : List Int)
    (nIV off : Nat) :
    ∀ (n : Nat) (p : List BodyParam) (i : Nat), i < n → nIV + i < p.length →
      ((List.range n).foldl (scanParamUpd node_inputs axesIn nIV off) p).getD (nIV + i) {} =
        { pshape := scanParamShape (node_inputs.getD (nIV + i + off) dfltV) (axesIn.getD i 0)
          et := (p.getD (nIV + i) {}).et } := by
  intro n
  induction n with
  | zero => intro p i hi _; exact absurd hi (by omega)
  | succ n ih =>
    intro p i hi hlen
    rw [List.range_succ, List.foldl_append, List.foldl_cons, List.foldl_nil]
    by_cases hin : i = n
    · subst hin
      simp only [scanParamUpd]
      rw [List.getD_eq_getElem?_getD,
        List.getElem?_set_self (by rw [foldl_scanParamUpd_length]; exact hlen)]
      rw [foldl_scanParamUpd_untouched node_inputs axesIn nIV off i p (nIV + i)
        (fun j hj => by omega)]
      rfl
    · have hi' : i < n := by omega
      simp only [scanParamUpd]
      rw [List.getD_eq_getElem?_getD,
        List.getElem?_set_ne (by omega : nIV + n ≠ nIV + i),
        ← List.getD_eq_getElem?_getD]
      exact ih p i hi' hlen

theorem alignInitial_length (node_inputs : List OVValue) (bps : List BodyParam)
    (nIV off : Nat) :
    (alignInitial node_inputs bps nIV off).length = bps.length := by
  unfold alignInitial
  exact List.length_mapIdx

theorem alignInitial_getD_ge (node_inputs : List OVValue) (bps : List BodyParam)
    (nIV off k : Nat) (hk : nIV ≤ k) :
    (alignInitial node_inputs bps nIV off).getD k {} = bps.getD k {} := by
  unfold alignInitial
  rw [List.getD_eq_getElem?_getD, List.getD_eq_getElem?_getD, List.getElem?_mapIdx]
  cases h : bps[k]? with
  | none => rfl
  | some bp => simp [Nat.not_lt.mpr hk]

/-- C9: the scan body rewrite replaces every operand occurrence of each
scan-input body parameter by a Squeeze of that parameter along the scan axis
(simultaneously over all scan inputs, roots that ARE parameters excepted), and
gives each scan-input parameter whose node input has a static rank the input's
shape with extent 1 at the normalized scan axis; the Squeeze's raw axis
normalizes, against the parameter's (unchanged) rank, to that same axis. -/
theorem c9_scan_body_rewrite (node_inputs : List OVValue) (bps : List BodyParam)
    (brs : List BTerm) (nsi : Nat) (axesIn axesOut : List Int) (off : Nat)
    (hnsi : nsi ≤ bps.length) :
    scanBodyResultsFinal node_inputs bps nsi axesIn axesOut brs off =
      unsqueezeOutputs (brs.map (scanSubstSpec (bps.length - nsi) nsi axesIn))
        axesOut (bps.length - nsi) ∧
    (∀ i, i < nsi → ∀ ds,
      (node_inputs.getD (bps.length - nsi + i + off) dfltV).pshape = some ds →
      ((scanBodyParamsFinal node_inputs bps nsi axesIn brs off).getD
          (bps.length - nsi + i) {}).pshape =
        some (ds.set (normAxRank (axesIn.getD i 0) (some ds.length)).toNat (some 1)) ∧
      (ds.set (normAxRank (axesIn.getD i 0) (some ds.length)).toNat (some 1)).length =
        ds.length ∧
      (normAxRankOk (axesIn.getD i 0) (some ds.length) = true →
        (ds.set (normAxRank (axesIn.getD i 0) (some ds.length)).toNat
            (some 1)).getD
          (normAxRank (axesIn.getD i 0) (some ds.length)).toNat none = some 1)) := by
  constructor
  · unfold scanBodyResultsFinal
    rw [scanRewrite_eq]
    rw [foldl_scanResUpd_eq]
    have hfun : seqApply (bps.length - nsi) axesIn nsi =
        scanSubstSpec (bps.length - nsi) nsi axesIn :=
      funext (seqApply_eq_spec (bps.length - nsi) axesIn nsi)
    dsimp only
    rw [hfun]
  · intro i hi ds hds
    have hlen : bps.length - nsi + i < (alignInitial node_inputs bps (bps.length - nsi) off).length := by
      rw [alignInitial_length]
      omega
    refine ⟨?_, List.length_set .., ?_⟩
    · unfold scanBodyParamsFinal
      rw [scanRewrite_eq]
      rw [foldl_scanParamUpd_getD node_inputs axesIn (bps.length - nsi) off nsi _ i hi hlen]
      unfold scanParamShape
      rw [hds]
    · intro hok
      have hok' : -(ds.length : Int) ≤ axesIn.getD i 0 ∧ axesIn.getD i 0 < (ds.length : Int) := by
        have h2 := hok
        unfold normAxRankOk at h2
        rw [Bool.and_eq_true, decide_eq_true_eq, decide_eq_true_eq] at h2
        exact h2
      have hk : (normAxRank (axesIn.getD i 0) (some ds.length)).toNat < ds.length := by
        simp only [normAxRank]
        split_ifs with hneg
        · omega
        · omega
      rw [List.getD_eq_getElem?_getD, List.getElem?_set_self hk]
      rfl

/-- C9 witness: the concrete one-state one-scan-input body. -/
theorem c9_scan_body_rewrite_witness :
    1 ≤ exBody.params.length ∧
    (scanBodyResultsFinal [exInit, exScanIn] exBody.params 1 [0] [0]
        exBody.results 0 =
      unsqueezeOutputs (exBody.results.map
        (scanSubstSpec (exBody.params.length - 1) 1 [0])) [0]
        (exBody.params.length - 1) ∧
    (∀ i, i < 1 → ∀ ds,
      (([exInit, exScanIn] : List OVValue).getD (exBody.params.length - 1 + i + 0) dfltV).pshape = some ds →
      ((scanBodyParamsFinal [exInit, exScanIn] exBody.params 1 [0]
          exBody.results 0).getD (exBody.params.length - 1 + i) {}).pshape =
        some (ds.set (normAxRank (([0] : List Int).getD i 0) (some ds.length)).toNat (some 1)) ∧
      (ds.set (normAxRank (([0] : List Int).getD i 0) (some ds.length)).toNat (some 1)).length =
        ds.length ∧
      (normAxRankOk (([0] : List Int).getD i 0) (some ds.length) = true →
        (ds.set (normAxRank (([0] : List Int).getD i 0) (some ds.length)).toNat
            (some 1)).getD
          (normAxRank (([0] : List Int).getD i 0) (some ds.length)).toNat none = some 1))) :=
  ⟨by decide, c9_scan_body_rewrite [exInit, exScanIn] exBody.params exBody.results 1
    [0] [0] 0 (by decide)⟩

/-- The success value of stft equals the claim-C1 framed-DFT concatenation
built from the claim's frame-length, frame-count and slice-bound formulas. -/
theorem stftOutT_spec (ins : List OVValue) (ats : List (String × Int)) :
    stftOutT (winProvided ins) (dftLenProvided ins) (signalDim ins 0) (signalDim ins 1)
      (signalDim ins 2) (stftFrameStep ins) (stftFrameLength ins)
      (getAttrInt ats "onesided" 1)
      (Int.tdiv (signalDim ins 1 - stftFrameLength ins) (stftFrameStep ins) + 1) =
    Term.concat
      ((List.range (signalDim ins 0).toNat).map fun b =>
        Term.unsqueeze
          (Term.concat
            ((List.range (specC1Nstfts ins).toNat).map fun s =>
              Term.unsqueeze
                (Term.makeDFT (specC1DftData ins ats (b : Int) (s : Int))
                  (if dftLenProvided ins then Term.arg 3 else Term.nullNode)
                  0 false (getAttrInt ats "onesided" 1 = 1))
                zeroC) 0) zeroC) 0 := by
  unfold stftOutT dftT dftDataT flattenT frameSliceT specC1DftData specC1Frame
    specC1Nstfts specC1FrameLength stftFrameLength
  rfl

/-- C1: a successful stft translation returns the single output that
concatenates, over batch elements b, the concatenation over frame indices s of
the DFT of frame (b, s); the frame is the signal slice covering rows [b, b+1)
on axis 0 and [s*frame_step, s*frame_step+frame_length) on axis 1 (flattened),
multiplied by the window input when one is provided, with frame_length
defaulting to axis-1 length / frame_step or taken from the dft_length
constant, and nstfts = (axis1_len - frame_length) / frame_step + 1. -/
theorem c1_stft (node : Node) (outs : List Term) (h : stft node = .ok outs) :
    outs = [Term.concat
      ((List.range (signalDim node.inputs 0).toNat).map fun b =>
        Term.unsqueeze
          (Term.concat
            ((List.range (specC1Nstfts node.inputs).toNat).map fun s =>
              Term.unsqueeze
                (Term.makeDFT (specC1DftData node.inputs node.attrInts (b : Int) (s : Int))
                  (if dftLenProvided node.inputs then Term.arg 3 else Term.nullNode)
                  0 false (getAttrInt node.attrInts "onesided" 1 = 1))
                zeroC) 0) zeroC) 0] := by
  unfold stft stftCore at h
  split_ifs at h
  rw [Except.ok.injEq] at h
  rw [← h]
  rw [stftOutT_spec node.inputs node.attrInts]

/-- C1 witness: the concrete stft node with signal [2,4,1] and frame_step 2. -/
theorem c1_stft_witness :
    okOrT (stft wStftNode) = [Term.concat
      ((List.range (signalDim wStftNode.inputs 0).toNat).map fun b =>
        Term.unsqueeze
          (Term.concat
            ((List.range (specC1Nstfts wStftNode.inputs).toNat).map fun s =>
              Term.unsqueeze
                (Term.makeDFT (specC1DftData wStftNode.inputs wStftNode.attrInts (b : Int) (s : Int))
                  (if dftLenProvided wStftNode.inputs then Term.arg 3 else Term.nullNode)
                  0 false (getAttrInt wStftNode.attrInts "onesided" 1 = 1))
                zeroC) 0) zeroC) 0] :=
  c1_stft wStftNode (okOrT (stft wStftNode)) rfl

/-- C3 amended: with at least the two mandatory inputs present, the stft
translation fails exactly when one of the five stated conditions OR the
(previously missing) dft_length constant-form condition holds; otherwise it
produces exactly one output. -/
theorem c3_amended (node : Node) (h2 : 2 ≤ node.inputs.length) :
    ((stft node).isOk = false ↔ c3AmendedFails node.inputs node.attrInts = true) ∧
    (∀ outs, stft node = .ok outs → outs.length = 1) := by
  constructor
  · unfold stft stftCore
    rw [if_neg (by omega : ¬ ¬ 2 ≤ node.inputs.length)]
    split_ifs with g1 g2 g3 g4 g5 g6 <;>
      simp_all [Except.isOk, Except.toBool, c3AmendedFails, c3ClaimFails, c3DftLenFails]
  · intro outs hout
    unfold stft stftCore at hout
    split_ifs at hout
    rw [Except.ok.injEq] at hout
    rw [← hout]
    rfl

/-- C3 amended witness: the well-formed stft node succeeds with one output and
fails none of the amended conditions. -/
theorem c3_amended_witness :
    2 ≤ wStftNode.inputs.length ∧
    ((stft wStftNode).isOk = false ↔
      c3AmendedFails wStftNode.inputs wStftNode.attrInts = true) ∧
    (∀ outs, stft wStftNode = .ok outs → outs.length = 1) :=
  ⟨by decide, (c3_amended wStftNode (by decide)).1, (c3_amended wStftNode (by decide)).2⟩

/-- C2: a successful scan translation returns one output per body output, in
order: for each of the (body input count - num_scan_inputs) state variables
the final iteration value (iteration -1) of the merged back-edge body output
of the single TensorIterator; then for each scan output the concatenated
slices of that body output along its normalized scan_output_axes axis, with
(start, stride) = (-1, -1) for direction 1 and (0, 1) for direction 0; scan
inputs are sliced with the same direction convention. -/
theorem c2_scan_outputs (node_inputs : List OVValue) (bps : List BodyParam)
    (brs : List BTerm) (nsi : Nat) (axesIn dirsIn axesOut dirsOut : List Int)
    (off : Nat) (outs : List ScanOutput)
    (hnIV : bps.length - nsi ≤ brs.length)
    (h : scan_to_tensor_iterator node_inputs bps brs nsi axesIn dirsIn axesOut
      dirsOut off = .ok outs) :
    outs.length = brs.length ∧
    (scanTIdesc node_inputs bps brs nsi axesIn dirsIn axesOut off).merged.length =
      bps.length - nsi ∧
    (scanTIdesc node_inputs bps brs nsi axesIn dirsIn axesOut off).sliced.length = nsi ∧
    (∀ i, i < bps.length - nsi →
      outs.getD i dfltScanOut =
        ScanOutput.iterValue (scanTIdesc node_inputs bps brs nsi axesIn dirsIn axesOut off)
          ((scanTIdesc node_inputs bps brs nsi axesIn dirsIn axesOut off).bodyResults.getD i
            (.param 0)) (-1) ∧
      (scanTIdesc node_inputs bps brs nsi axesIn dirsIn axesOut off).merged.getD i dfltMerged =
        { paramIdx := i, inputIdx := i + off
          bodyOut := (scanTIdesc node_inputs bps brs nsi axesIn dirsIn axesOut off).bodyResults.getD i
            (.param 0) }) ∧
    (∀ i, i < nsi →
      (dirsIn.getD i 0 = 1 →
        (scanTIdesc node_inputs bps brs nsi axesIn dirsIn axesOut off).sliced.getD i dfltSliced =
          { paramIdx := bps.length - nsi + i, inputIdx := bps.length - nsi + i + off
            start := -1, stride := -1, partSize := 1, stop := 0
            axis := normAxRank (axesIn.getD i 0)
              (rankOf (node_inputs.getD (bps.length - nsi + i + off) dfltV).pshape) }) ∧
      (dirsIn.getD i 0 = 0 →
        (scanTIdesc node_inputs bps brs nsi axesIn dirsIn axesOut off).sliced.getD i dfltSliced =
          { paramIdx := bps.length - nsi + i, inputIdx := bps.length - nsi + i + off
            start := 0, stride := 1, partSize := 1, stop := -1
            axis := normAxRank (axesIn.getD i 0)
              (rankOf (node_inputs.getD (bps.length - nsi + i + off) dfltV).pshape) })) ∧
    (∀ j, j < brs.length - (bps.length - nsi) →
      (dirsOut.getD j 0 = 1 →
        outs.getD (bps.length - nsi + j) dfltScanOut =
          ScanOutput.concatSlices (scanTIdesc node_inputs bps brs nsi axesIn dirsIn axesOut off)
            ((scanTIdesc node_inputs bps brs nsi axesIn dirsIn axesOut off).bodyResults.getD
              (bps.length - nsi + j) (.param 0))
            (-1) (-1) 1 0
            (normAxRank (axesOut.getD j 0)
              (rankOf (bpshape
                (scanTIdesc node_inputs bps brs nsi axesIn dirsIn axesOut off).bodyParams
                ((scanTIdesc node_inputs bps brs nsi axesIn dirsIn axesOut off).bodyResults.getD
                  (bps.length - nsi + j) (.param 0)))))) ∧
      (dirsOut.getD j 0 = 0 →
        outs.getD (bps.length - nsi + j) dfltScanOut =
          ScanOutput.concatSlices (scanTIdesc node_inputs bps brs nsi axesIn dirsIn axesOut off)
            ((scanTIdesc node_inputs bps brs nsi axesIn dirsIn axesOut off).bodyResults.getD
              (bps.length - nsi + j) (.param 0))
            0 1 1 (-1)
            (normAxRank (axesOut.getD j 0)
              (rankOf (bpshape
                (scanTIdesc node_inputs bps brs nsi axesIn dirsIn axesOut off).bodyParams
                ((scanTIdesc node_inputs bps brs nsi axesIn dirsIn axesOut off).bodyResults.getD
                  (bps.length - nsi + j) (.param 0))))))) := by
  have hout : outs = scanOutputsList node_inputs bps brs nsi axesIn dirsIn axesOut dirsOut off := by
    unfold scan_to_tensor_iterator at h
    split_ifs at h
    rw [Except.ok.injEq] at h
    exact h.symm
  subst hout
  refine ⟨?_, ?_, ?_, ?_, ?_, ?_⟩
  · unfold scanOutputsList
    simp only [List.length_append, List.length_map, List.length_range]
    omega
  · unfold scanTIdesc
    simp [List.length_map, List.length_range]
  · unfold scanTIdesc
    simp [List.length_map, List.length_range]
  · intro i hi
    constructor
    · unfold scanOutputsList
      rw [getD_append_map_range_left _ _ _ _ i hi]
      rfl
    · unfold scanTIdesc
      rw [getD_map_range _ _ i hi]
  · intro i hi
    constructor
    · intro hdir
      unfold scanTIdesc
      rw [getD_map_range _ _ i hi, hdir]
      rfl
    · intro hdir
      unfold scanTIdesc
      rw [getD_map_range _ _ i hi, hdir]
      rfl
  · intro j hj
    constructor
    · intro hdir
      unfold scanOutputsList
      rw [getD_append_map_range_right _ _ _ _ j hj, hdir]
      rfl
    · intro hdir
      unfold scanOutputsList
      rw [getD_append_map_range_right _ _ _ _ j hj, hdir]
      rfl

/-- C2 witness: the concrete one-state one-scan-input scan translation yields
exactly as many outputs as the body has outputs. -/
theorem c2_scan_outputs_witness :
    (okOrScan (scan_to_tensor_iterator [exInit, exScanIn] exBody.params
      exBody.results 1 [0] [0] [0] [0] 0)).length = exBody.results.length :=
  (c2_scan_outputs [exInit, exScanIn] exBody.params exBody.results 1 [0] [0] [0] [0] 0
    (okOrScan (scan_to_tensor_iterator [exInit, exScanIn] exBody.params
      exBody.results 1 [0] [0] [0] [0] 0))
    (by decide) rfl).1

/-- C10 amended, instantiated: frame_step value 3 also passes the check and
becomes the divisor. -/
theorem c10_amended_witness :
    constScalarOk ((c10Node 3).inputs.getD 1 dfltV) = true ∧
    stftFrameStep (c10Node 3).inputs = 3 ∧
    stftFrameLength (c10Node 3).inputs = Int.tdiv 4 3 :=
  c10_amended 3

end OnnxFrontend
